import Mathlib

/-!
Verification of the ZanCan frame codec (`src/lib.rs`).

The codec itself (struct `ZanCanFrame`, its constructors, decoders and the
helper `id_from_type_and_address`) is embedded from the source.  The
collaborator modules (`address`, `zan_can_type`, `emegency`, `error`,
`message_data`) are declared by the crate but their files are not part of
the sources at hand; they are modelled from the specification and marked
as such in their doc comments.  Machine integers are modelled as `Nat`
with explicit `% 2 ^ w` wherever Rust truncates; a Rust function that can
panic is modelled as returning `Option`, with `none` standing for the
panic.
-/

namespace ZanCan

/-- Modelled from the spec: the closed set of message kinds provided by the
missing module `zan_can_type` (`ZanCanFrameType`): Emergency, Error,
SentData, RequestData, SetData. -/
inductive ZanCanFrameType where
  | emergency
  | error
  | sentData
  | requestData
  | setData
deriving DecidableEq, Repr

/-- Modelled from the spec: the closed catalog of frame-type codes, each
byte-convertible (`u8::from(t)`), provided by the missing module
`zan_can_type`.  The concrete code values are the catalog collaborator
choice; they are modelled as distinct small bytes in declaration order. -/
def typeCode : ZanCanFrameType → Nat
  | .emergency => 0
  | .error => 1
  | .sentData => 2
  | .requestData => 3
  | .setData => 4

/-- The CAN identifier (`embedded_can::Id`): a standard (11-bit) or
extended (29-bit) raw identifier. -/
inductive CanId where
  | standard (raw : Nat)
  | extended (raw : Nat)
deriving DecidableEq, Repr

/-- The raw numeric value carried by a `CanId`. -/
def CanId.raw : CanId → Nat
  | .standard r => r
  | .extended r => r

/-- Modelled from the spec: the total classification function of the
missing module `zan_can_type` from a type code to a catalog member;
unrecognized codes are default-mapped (here to `emergency`). -/
def frameTypeOfCode (c : Nat) : ZanCanFrameType :=
  if c = typeCode .emergency then .emergency
  else if c = typeCode .error then .error
  else if c = typeCode .sentData then .sentData
  else if c = typeCode .requestData then .requestData
  else if c = typeCode .setData then .setData
  else .emergency

/-- Modelled from the spec: `ZanCanFrameType::from(id)` of the missing
module `zan_can_type`: classify a raw identifier by decoding its type
sub-field, the bits above the `ADDRESS_BIT_LENGTH` low-order address bits.
The protocol-wide constant `ADDRESS_BIT_LENGTH` of the missing module
`address` is kept as the explicit parameter `ab` throughout. -/
def frameTypeFromId (ab : Nat) (id : CanId) : ZanCanFrameType :=
  frameTypeOfCode (id.raw >>> ab)

/-- Modelled from the spec: `u8::from(status)` of the missing module
`emegency`: the status is a single validated bit value, convertible to a
byte with the top bit only.  `EmegencyStatus` is modelled as `Bool`. -/
def statusToByte (s : Bool) : Nat := if s then 0x80 else 0x00

/-- Modelled from the spec: `EmegencyStatus::try_from(byte)` of the
missing module `emegency`: the fallible from-raw conversion accepting
exactly the two top-bit-only byte patterns. -/
def statusTryFrom (b : Nat) : Except String Bool :=
  if b = 0x80 then Except.ok true
  else if b = 0x00 then Except.ok false
  else Except.error "invalid status"

/-- Modelled from the spec: `EmergencyReason::try_from(u16)` of the
missing module `emegency`: the reason catalog domain is the 16-bit values
with bit 15 clear; the fallible from-raw conversion rejects values
outside it.  `EmergencyReason` is modelled as its `u16` value. -/
def reasonTryFrom (r : Nat) : Except String Nat :=
  if r < 0x8000 then Except.ok r else Except.error "invalid reason"

/-- Modelled from the spec: `ErrorCode::from(u16)` of the missing module
`error`: a closed catalog convertible to and from `u16`, assumed total.
`ErrorCode` is modelled as its `u16` value, so the conversion is the
identity. -/
def errorCodeFromU16 (c : Nat) : Nat := c

/-- Modelled from the spec: the interface of the missing module
`message_data` for `DataMessage` and `DataIdentifier`: a fallible
byte-buffer writer (`ser m = none` when the payload cannot fit, otherwise
the bytes it writes at the start of the zeroed 8-byte buffer), a `len`
giving the number of meaningful bytes, and a fallible parse from a byte
slice. -/
structure DataCodec (α : Type) where
  ser : α → Option (List Nat)
  len : α → Nat
  tryFrom : List Nat → Except String α

/-- A generic `embedded_can::Frame` as consumed by `from_frame`: it
exposes an identifier, a data length code and data bytes, plus a
remote-request flag (the extended flag is carried by `CanId`). -/
structure GenericFrame where
  id : CanId
  dlc : Nat
  data : List Nat
  remote : Bool

/-- `struct ZanCanFrame { id, data_len, data: [u8; 8], f_type }`.  The
fixed 8-byte array is modelled as a `List Nat`; every constructor below
produces a list of length exactly 8. -/
structure ZanCanFrame where
  id : CanId
  data_len : Nat
  data : List Nat
  f_type : ZanCanFrameType
deriving Repr

/-- The zero-padded 8-byte buffer obtained by writing `bs` at the start
of a zeroed `[u8; 8]`. -/
def padTo8 (bs : List Nat) : List Nat := (bs ++ List.replicate 8 0).take 8

/-- `fn id_from_type_and_address(t, addr) -> Id` (src/lib.rs lines
168-174).  `id_u16 = ((u8::from(t) as u16) << ADDRESS_BIT_LENGTH) |
(u8::from(addr) as u16)` with `u16` wrap-around on the shift, then
`StandardId::new(id_u16)`, whose `expect` panics when the value exceeds
0x7FF.  A shift amount of 16 or more is itself a panic.  The address is
modelled as its byte value `addr % 256`. -/
def id_from_type_and_address (ab : Nat) (t : ZanCanFrameType) (addr : Nat) :
    Option CanId :=
  if 16 ≤ ab then none
  else
    let idU16 := ((typeCode t <<< ab) % 65536) ||| (addr % 256)
    if idU16 ≤ 0x7FF then some (CanId.standard idU16) else none

/-- `ZanCanFrame::from_frame` (src/lib.rs lines 59-70): classify the kind
from the identifier, copy the data bytes one by one into a zeroed 8-byte
array.  The copy loop runs `i` up to `f.data().len()`; when that exceeds
8 the write `data[i]` is out of bounds, a panic, modelled as `none`. -/
def ZanCanFrame.from_frame (ab : Nat) (f : GenericFrame) : Option ZanCanFrame :=
  if f.data.length ≤ 8 then
    some { id := f.id, data_len := f.dlc, data := padTo8 f.data,
           f_type := frameTypeFromId ab f.id }
  else none

/-- `ZanCanFrame::frame_type` (src/lib.rs lines 72-74). -/
def ZanCanFrame.frame_type (fr : ZanCanFrame) : ZanCanFrameType := fr.f_type

/-- `<ZanCanFrame as Frame>::new` (src/lib.rs lines 27-29): the body is an
unconditional panic, modelled as the outer `none`; an inner
`some o` would be the `Option<Self>` the Rust signature returns. -/
def ZanCanFrame.new (_id : CanId) (_d : List Nat) :
    Option (Option ZanCanFrame) := none

/-- `<ZanCanFrame as Frame>::new_remote` (src/lib.rs lines 31-33): an
unconditional panic, modelled as the outer `none`. -/
def ZanCanFrame.new_remote (_id : CanId) (_l : Nat) :
    Option (Option ZanCanFrame) := none

/-- `ZanCanFrame::new_emergency` (src/lib.rs lines 76-85):
`data[0] = u8::from(status) | (reason_u16 >> 8) as u8`,
`data[1] = reason_u16 as u8`, length 2, identifier from the Emergency
type code.  The `expect` panic inside the identifier helper propagates as
`none`. -/
def ZanCanFrame.new_emergency (ab addr : Nat) (status : Bool) (reason : Nat) :
    Option ZanCanFrame :=
  let reasonU16 := reason % 65536
  let d0 := statusToByte status ||| ((reasonU16 >>> 8) % 256)
  let d1 := reasonU16 % 256
  match id_from_type_and_address ab .emergency addr with
  | some i =>
      some { id := i, data_len := 2, data := [d0, d1, 0, 0, 0, 0, 0, 0],
             f_type := .emergency }
  | none => none

/-- `ZanCanFrame::decode_emergency` (src/lib.rs lines 87-98): kind check
first, then status from `data[0] & 0x80`, reason from
`((data[0] & 0x7F) << 8) | data[1]`. -/
def ZanCanFrame.decode_emergency (fr : ZanCanFrame) :
    Except String (Bool × Nat) :=
  if fr.f_type ≠ ZanCanFrameType.emergency then
    Except.error "Cannot decode emergency frame if not of emergency type"
  else
    match statusTryFrom (fr.data.getD 0 0 &&& 0x80) with
    | Except.error e => Except.error e
    | Except.ok status =>
        match reasonTryFrom (((fr.data.getD 0 0 &&& 0x7F) <<< 8) ||| fr.data.getD 1 0) with
        | Except.error e => Except.error e
        | Except.ok reason => Except.ok (status, reason)

/-- `ZanCanFrame::new_error` (src/lib.rs lines 100-106):
`data[0] = (code as u16) >> 8`, `data[1] = code as u16`, length 2,
identifier from the Error type code. -/
def ZanCanFrame.new_error (ab addr : Nat) (code : Nat) : Option ZanCanFrame :=
  let errorCodeU16 := code % 65536
  let d0 := (errorCodeU16 >>> 8) % 256
  let d1 := errorCodeU16 % 256
  match id_from_type_and_address ab .error addr with
  | some i =>
      some { id := i, data_len := 2, data := [d0, d1, 0, 0, 0, 0, 0, 0],
             f_type := .error }
  | none => none

/-- `ZanCanFrame::decode_error` (src/lib.rs lines 108-118): kind check
first, then the big-endian reassembly `(data[0] << 8) | data[1]` mapped
through the total `ErrorCode::from`. -/
def ZanCanFrame.decode_error (fr : ZanCanFrame) : Except String Nat :=
  if fr.f_type ≠ ZanCanFrameType.error then
    Except.error "Cannot decode error frame if not of error type"
  else
    Except.ok (errorCodeFromU16 ((fr.data.getD 0 0 <<< 8) ||| fr.data.getD 1 0))

/-- `ZanCanFrame::new_sent_data` (src/lib.rs lines 120-124): write the
message into a zeroed 8-byte buffer (`expect` panic when the writer
fails, modelled as `none`), length `message.len()`, identifier from the
SentData type code. -/
def ZanCanFrame.new_sent_data {α : Type} (D : DataCodec α) (ab addr : Nat)
    (message : α) : Option ZanCanFrame :=
  match D.ser message with
  | none => none
  | some bs =>
      match id_from_type_and_address ab .sentData addr with
      | some i =>
          some { id := i, data_len := D.len message, data := padTo8 bs,
                 f_type := .sentData }
      | none => none

/-- `ZanCanFrame::decode_sent_data` (src/lib.rs lines 126-133): kind
check first, then `DataMessage::try_from(&self.data[..])` over the full
fixed 8-byte buffer. -/
def ZanCanFrame.decode_sent_data {α : Type} (D : DataCodec α)
    (fr : ZanCanFrame) : Except String α :=
  if fr.f_type ≠ ZanCanFrameType.sentData then
    Except.error "Cannot decode sent data frame if not of sent data type"
  else
    D.tryFrom fr.data

/-- `ZanCanFrame::new_request_data` (src/lib.rs lines 135-140): write the
data identifier into a zeroed 8-byte buffer, length `data_id.len()`,
identifier from the RequestData type code. -/
def ZanCanFrame.new_request_data {α : Type} (D : DataCodec α) (ab addr : Nat)
    (dataId : α) : Option ZanCanFrame :=
  match D.ser dataId with
  | none => none
  | some bs =>
      match id_from_type_and_address ab .requestData addr with
      | some i =>
          some { id := i, data_len := D.len dataId, data := padTo8 bs,
                 f_type := .requestData }
      | none => none

/-- `ZanCanFrame::decode_request_data` (src/lib.rs lines 142-149): kind
check first, then `DataIdentifier::try_from(&self.data[0..self.data_len])`
over exactly the length-bounded slice.  Slicing the fixed 8-byte array
with `data_len > 8` is a panic, modelled as the outer `none`. -/
def ZanCanFrame.decode_request_data {α : Type} (D : DataCodec α)
    (fr : ZanCanFrame) : Option (Except String α) :=
  if fr.f_type ≠ ZanCanFrameType.requestData then
    some (Except.error "Cannot decode request data frame if not of request data type")
  else if fr.data_len ≤ 8 then
    some (D.tryFrom (fr.data.take fr.data_len))
  else none

/-- `ZanCanFrame::new_set_data` (src/lib.rs lines 151-155): write the
message into a zeroed 8-byte buffer, length `message.len()`, identifier
from the SetData type code. -/
def ZanCanFrame.new_set_data {α : Type} (D : DataCodec α) (ab addr : Nat)
    (message : α) : Option ZanCanFrame :=
  match D.ser message with
  | none => none
  | some bs =>
      match id_from_type_and_address ab .setData addr with
      | some i =>
          some { id := i, data_len := D.len message, data := padTo8 bs,
                 f_type := .setData }
      | none => none

/-- `ZanCanFrame::decode_set_data` (src/lib.rs lines 157-164): kind check
first, then `DataMessage::try_from(&self.data[..])` over the full fixed
8-byte buffer. -/
def ZanCanFrame.decode_set_data {α : Type} (D : DataCodec α)
    (fr : ZanCanFrame) : Except String α :=
  if fr.f_type ≠ ZanCanFrameType.setData then
    Except.error "Cannot decode set data frame if not of set data type"
  else
    D.tryFrom fr.data

/-! ## Helper lemmas -/

theorem typeCode_le_four (t : ZanCanFrameType) : typeCode t ≤ 4 := by
  cases t <;> simp [typeCode]

theorem frameTypeOfCode_typeCode (t : ZanCanFrameType) :
    frameTypeOfCode (typeCode t) = t := by
  cases t <;> rfl

theorem shiftLeft_or_eq_add {ab addr : Nat} (t : ZanCanFrameType)
    (haddr : addr < 2 ^ ab) :
    (typeCode t <<< ab) ||| addr = typeCode t * 2 ^ ab + addr := by
  rw [Nat.shiftLeft_eq, Nat.mul_comm, ← Nat.mul_add_lt_is_or haddr, Nat.mul_comm]

theorem id_value_lt {ab addr : Nat} (t : ZanCanFrameType) (hab : ab ≤ 8)
    (haddr : addr < 2 ^ ab) :
    typeCode t * 2 ^ ab + addr < 2 ^ 11 := by
  have h4 := typeCode_le_four t
  have hpow : (2 : Nat) ^ ab ≤ 2 ^ 8 :=
    Nat.pow_le_pow_right (by norm_num) hab
  have hmul : typeCode t * 2 ^ ab ≤ 4 * 2 ^ 8 := Nat.mul_le_mul h4 hpow
  have haddr8 : addr < 2 ^ 8 := lt_of_lt_of_le haddr hpow
  norm_num at hmul haddr8 ⊢
  omega

theorem id_from_type_and_address_eq {ab addr : Nat} (t : ZanCanFrameType)
    (hab : ab ≤ 8) (haddr : addr < 2 ^ ab) :
    id_from_type_and_address ab t addr
      = some (CanId.standard (typeCode t * 2 ^ ab + addr)) := by
  have h4 := typeCode_le_four t
  have hpow : (2 : Nat) ^ ab ≤ 2 ^ 8 :=
    Nat.pow_le_pow_right (by norm_num) hab
  have haddr8 : addr < 256 := lt_of_lt_of_le haddr (by norm_num at hpow ⊢; omega)
  have hmul : typeCode t * 2 ^ ab ≤ 4 * 2 ^ 8 := Nat.mul_le_mul h4 hpow
  have hfit := id_value_lt t hab haddr
  unfold id_from_type_and_address
  rw [if_neg (by omega)]
  have hsh : (typeCode t <<< ab) % 65536 = typeCode t <<< ab := by
    apply Nat.mod_eq_of_lt
    rw [Nat.shiftLeft_eq]
    norm_num at hmul ⊢
    omega
  simp only [hsh, Nat.mod_eq_of_lt haddr8, shiftLeft_or_eq_add t haddr]
  rw [if_pos (by norm_num at hfit ⊢; omega)]

theorem shiftRight_recover {ab addr : Nat} (t : ZanCanFrameType)
    (haddr : addr < 2 ^ ab) :
    (typeCode t * 2 ^ ab + addr) >>> ab = typeCode t := by
  rw [Nat.shiftRight_eq_div_pow, Nat.mul_comm,
    Nat.mul_add_div (Nat.pos_pow_of_pos ab (by norm_num)),
    Nat.div_eq_of_lt haddr, Nat.add_zero]

/-! ## Claims -/

/-- Claim C3: for every (type code, address code) pair within their valid
ranges, the identifier computed by `id_from_type_and_address` equals
`(type_code <<< ADDRESS_BITS) ||| address_code`, and decoding the type
sub-field of that identifier recovers the type code exactly. -/
theorem C3_identifier_composition (ab addr : Nat) (t : ZanCanFrameType)
    (hab : ab ≤ 8) (haddr : addr < 2 ^ ab) :
    id_from_type_and_address ab t addr
      = some (CanId.standard ((typeCode t <<< ab) ||| addr)) ∧
    ((typeCode t <<< ab) ||| addr) >>> ab = typeCode t := by
  rw [shiftLeft_or_eq_add t haddr]
  exact ⟨id_from_type_and_address_eq t hab haddr, shiftRight_recover t haddr⟩

/-- Witness for C3 at `ab = 8`, `addr = 0x2A`, type `sentData`. -/
theorem C3_witness :
    id_from_type_and_address 8 ZanCanFrameType.sentData 0x2A
      = some (CanId.standard ((typeCode ZanCanFrameType.sentData <<< 8) ||| 0x2A)) ∧
    ((typeCode ZanCanFrameType.sentData <<< 8) ||| 0x2A) >>> 8
      = typeCode ZanCanFrameType.sentData :=
  C3_identifier_composition 8 0x2A ZanCanFrameType.sentData (by decide) (by decide)

/-- Claim C8: for every frame-type code and address code within their own
valid ranges, the composed identifier fits within 11 bits, so the
`StandardId` construction inside `id_from_type_and_address` succeeds and
its panic branch is unreachable. -/
theorem C8_identifier_fits (ab addr : Nat) (t : ZanCanFrameType)
    (hab : ab ≤ 8) (haddr : addr < 2 ^ ab) :
    ∃ i, id_from_type_and_address ab t addr = some (CanId.standard i) ∧
      i < 2 ^ 11 :=
  ⟨typeCode t * 2 ^ ab + addr, id_from_type_and_address_eq t hab haddr,
    id_value_lt t hab haddr⟩

/-- Witness for C8 at `ab = 8`, `addr = 0xFF`, type `setData`. -/
theorem C8_witness :
    ∃ i, id_from_type_and_address 8 ZanCanFrameType.setData 0xFF
      = some (CanId.standard i) ∧ i < 2 ^ 11 :=
  C8_identifier_fits 8 0xFF ZanCanFrameType.setData (by decide) (by decide)

/-- Claim C10: for every identifier and byte slice (resp. length), the
trait methods `Frame::new` and `Frame::new_remote` on `ZanCanFrame`
unconditionally panic (modelled as the outer `none`) and never return a
value, not even the `None` of the Rust signature. -/
theorem C10_new_panics (id : CanId) (d : List Nat) (l : Nat) :
    ZanCanFrame.new id d = none ∧ ZanCanFrame.new_remote id l = none :=
  ⟨rfl, rfl⟩

/-- A frame tagged as Error kind, used as a concrete decode input. -/
def frameA : ZanCanFrame :=
  { id := CanId.standard 0x123, data_len := 2,
    data := [1, 2, 3, 4, 5, 6, 7, 8], f_type := ZanCanFrameType.error }

/-- A frame tagged as Emergency kind, used as a concrete decode input. -/
def frameB : ZanCanFrame :=
  { id := CanId.standard 0x012, data_len := 2,
    data := [9, 9, 0, 0, 0, 0, 0, 0], f_type := ZanCanFrameType.emergency }

/-- A concrete instance of the data-message collaborator interface: a
payload is a byte, serialized as the one-byte list holding it, parsed
back as the first byte of the slice. -/
def natCodec : DataCodec Nat :=
  { ser := fun n => some [n % 256], len := fun _ => 1,
    tryFrom := fun bs => Except.ok (bs.headD 0) }

/-- Claim C2: for every frame whose stored kind is K, every other kind
decoder fails with its constant kind-mismatch error; the right-hand sides
are literals that do not mention the data bytes, so the mismatch result
is produced before any payload byte is examined. -/
theorem C2_kind_mismatch (fr : ZanCanFrame) :
    (fr.f_type ≠ ZanCanFrameType.emergency →
      fr.decode_emergency
        = Except.error "Cannot decode emergency frame if not of emergency type") ∧
    (fr.f_type ≠ ZanCanFrameType.error →
      fr.decode_error
        = Except.error "Cannot decode error frame if not of error type") ∧
    (∀ (α : Type) (D : DataCodec α), fr.f_type ≠ ZanCanFrameType.sentData →
      fr.decode_sent_data D
        = Except.error "Cannot decode sent data frame if not of sent data type") ∧
    (∀ (α : Type) (D : DataCodec α), fr.f_type ≠ ZanCanFrameType.requestData →
      fr.decode_request_data D
        = some (Except.error
            "Cannot decode request data frame if not of request data type")) ∧
    (∀ (α : Type) (D : DataCodec α), fr.f_type ≠ ZanCanFrameType.setData →
      fr.decode_set_data D
        = Except.error "Cannot decode set data frame if not of set data type") := by
  refine ⟨fun h => ?_, fun h => ?_, fun α D h => ?_, fun α D h => ?_,
    fun α D h => ?_⟩
  · unfold ZanCanFrame.decode_emergency
    rw [if_pos h]
  · unfold ZanCanFrame.decode_error
    rw [if_pos h]
  · unfold ZanCanFrame.decode_sent_data
    rw [if_pos h]
  · unfold ZanCanFrame.decode_request_data
    rw [if_pos h]
  · unfold ZanCanFrame.decode_set_data
    rw [if_pos h]

/-- Witness for C2: the Error-kind frame `frameA` is rejected by the four
other decoders, and the Emergency-kind frame `frameB` by `decode_error`. -/
theorem C2_witness :
    ZanCanFrame.decode_emergency frameA
      = Except.error "Cannot decode emergency frame if not of emergency type" ∧
    ZanCanFrame.decode_error frameB
      = Except.error "Cannot decode error frame if not of error type" ∧
    ZanCanFrame.decode_sent_data natCodec frameA
      = Except.error "Cannot decode sent data frame if not of sent data type" ∧
    ZanCanFrame.decode_request_data natCodec frameA
      = some (Except.error
          "Cannot decode request data frame if not of request data type") ∧
    ZanCanFrame.decode_set_data natCodec frameA
      = Except.error "Cannot decode set data frame if not of set data type" :=
  ⟨(C2_kind_mismatch frameA).1 (by decide),
   (C2_kind_mismatch frameB).2.1 (by decide),
   (C2_kind_mismatch frameA).2.2.1 Nat natCodec (by decide),
   (C2_kind_mismatch frameA).2.2.2.1 Nat natCodec (by decide),
   (C2_kind_mismatch frameA).2.2.2.2 Nat natCodec (by decide)⟩

theorem padTo8_eq {bs : List Nat} (h : bs.length ≤ 8) :
    padTo8 bs = bs ++ List.replicate (8 - bs.length) 0 := by
  unfold padTo8
  rw [List.take_append_eq_append_take, List.take_of_length_le h,
    List.take_replicate]
  congr 2
  omega

/-- A generic frame carrying nine data bytes (more than the 8-byte
classical CAN ceiling). -/
def nineByteFrame : GenericFrame :=
  { id := CanId.standard 0x200, dlc := 9,
    data := [1, 2, 3, 4, 5, 6, 7, 8, 9], remote := false }

/-- Counterexample to claim C7 as stated: `from_frame` does not truncate
a longer data slice.  On this nine-byte input the copy loop condition is
`i < f.data().len() = 9`, so at `i = 8` the write `data[8]` into the
fixed `[u8; 8]` buffer is out of bounds — a panic (modelled `none`), not
a truncation, so `from_frame` does fail on it. -/
theorem C7_counterexample :
    ZanCanFrame.from_frame 8 nineByteFrame = none := rfl

/-- Claim C7 amended: for every generic input frame whose data slice
holds at most 8 bytes (which every classical-CAN `embedded_can::Frame`
implementation guarantees), `from_frame` copies exactly those bytes into
the zero-initialized 8-byte buffer, the write loop stays in bounds, and
`from_frame` never fails; it does not truncate longer slices — for those
the loop indexing is out of bounds. -/
theorem C7_from_frame_bounded (ab : Nat) (f : GenericFrame)
    (h : f.data.length ≤ 8) :
    ZanCanFrame.from_frame ab f
      = some { id := f.id, data_len := f.dlc,
               data := f.data ++ List.replicate (8 - f.data.length) 0,
               f_type := frameTypeFromId ab f.id } := by
  unfold ZanCanFrame.from_frame
  rw [if_pos h, padTo8_eq h]

/-- A generic frame carrying three data bytes, extended and remote. -/
def threeByteFrame : GenericFrame :=
  { id := CanId.extended 0x400, dlc := 3, data := [10, 20, 30], remote := true }

/-- Witness for the amended C7 on a three-byte extended remote frame. -/
theorem C7_witness :
    ZanCanFrame.from_frame 8 threeByteFrame
      = some { id := threeByteFrame.id, data_len := threeByteFrame.dlc,
               data := threeByteFrame.data
                 ++ List.replicate (8 - threeByteFrame.data.length) 0,
               f_type := frameTypeFromId 8 threeByteFrame.id } :=
  C7_from_frame_bounded 8 threeByteFrame (by decide)

/-- Claim C9: on a kind match, `decode_sent_data` and `decode_set_data`
hand the full fixed 8-byte buffer to the deserializer, so their result
never depends on the stored length, while `decode_request_data` hands
exactly the `data[0..data_len]` slice, so its result depends only on the
kind, the stored length and the first `data_len` bytes. -/
theorem C9_slice_discipline :
    (∀ (α : Type) (D : DataCodec α) (fr : ZanCanFrame),
      fr.f_type = ZanCanFrameType.sentData →
      fr.decode_sent_data D = D.tryFrom fr.data) ∧
    (∀ (α : Type) (D : DataCodec α) (fr : ZanCanFrame),
      fr.f_type = ZanCanFrameType.setData →
      fr.decode_set_data D = D.tryFrom fr.data) ∧
    (∀ (α : Type) (D : DataCodec α) (fr : ZanCanFrame),
      fr.f_type = ZanCanFrameType.requestData → fr.data_len ≤ 8 →
      fr.decode_request_data D = some (D.tryFrom (fr.data.take fr.data_len))) ∧
    (∀ (α : Type) (D : DataCodec α) (fr : ZanCanFrame) (l1 l2 : Nat),
      ZanCanFrame.decode_sent_data D { fr with data_len := l1 }
        = ZanCanFrame.decode_sent_data D { fr with data_len := l2 }) ∧
    (∀ (α : Type) (D : DataCodec α) (fr : ZanCanFrame) (l1 l2 : Nat),
      ZanCanFrame.decode_set_data D { fr with data_len := l1 }
        = ZanCanFrame.decode_set_data D { fr with data_len := l2 }) ∧
    (∀ (α : Type) (D : DataCodec α) (fr1 fr2 : ZanCanFrame),
      fr1.f_type = fr2.f_type → fr1.data_len = fr2.data_len →
      fr1.data.take fr1.data_len = fr2.data.take fr2.data_len →
      fr1.decode_request_data D = fr2.decode_request_data D) := by
  refine ⟨fun α D fr h => ?_, fun α D fr h => ?_, fun α D fr h h8 => ?_,
    fun α D fr l1 l2 => rfl, fun α D fr l1 l2 => rfl,
    fun α D fr1 fr2 ht hl hd => ?_⟩
  · unfold ZanCanFrame.decode_sent_data
    rw [if_neg (not_not_intro h)]
  · unfold ZanCanFrame.decode_set_data
    rw [if_neg (not_not_intro h)]
  · unfold ZanCanFrame.decode_request_data
    rw [if_neg (not_not_intro h), if_pos h8]
  · unfold ZanCanFrame.decode_request_data
    rw [hd, ht, hl]

/-- A RequestData-kind frame with one meaningful byte. -/
def frameR : ZanCanFrame :=
  { id := CanId.standard 0x3AA, data_len := 1,
    data := [7, 0, 0, 0, 0, 0, 0, 0], f_type := ZanCanFrameType.requestData }

/-- A RequestData-kind frame agreeing with `frameR` on the one meaningful
byte but differing beyond it. -/
def frameR2 : ZanCanFrame :=
  { id := CanId.standard 0x3AB, data_len := 1,
    data := [7, 1, 2, 3, 4, 5, 6, 7], f_type := ZanCanFrameType.requestData }

/-- A SentData-kind frame. -/
def frameS : ZanCanFrame :=
  { id := CanId.standard 0x2AA, data_len := 1,
    data := [7, 0, 0, 0, 0, 0, 0, 0], f_type := ZanCanFrameType.sentData }

/-- A SetData-kind frame. -/
def frameT : ZanCanFrame :=
  { id := CanId.standard 0x4AA, data_len := 1,
    data := [7, 0, 0, 0, 0, 0, 0, 0], f_type := ZanCanFrameType.setData }

/-- Witness for C9 on concrete frames: full-buffer decode for SentData
and SetData, length-bounded decode for RequestData, and insensitivity of
RequestData decoding to the bytes beyond the stored length. -/
theorem C9_witness :
    ZanCanFrame.decode_sent_data natCodec frameS = natCodec.tryFrom frameS.data ∧
    ZanCanFrame.decode_set_data natCodec frameT = natCodec.tryFrom frameT.data ∧
    ZanCanFrame.decode_request_data natCodec frameR
      = some (natCodec.tryFrom (frameR.data.take frameR.data_len)) ∧
    ZanCanFrame.decode_request_data natCodec frameR
      = ZanCanFrame.decode_request_data natCodec frameR2 :=
  ⟨C9_slice_discipline.1 Nat natCodec frameS rfl,
   C9_slice_discipline.2.1 Nat natCodec frameT rfl,
   C9_slice_discipline.2.2.1 Nat natCodec frameR rfl (by decide),
   C9_slice_discipline.2.2.2.2.2 Nat natCodec frameR frameR2 rfl rfl rfl⟩

theorem statusToByte_and_top (s : Bool) : statusToByte s &&& 0x80 = statusToByte s := by
  cases s <;> rfl

theorem statusToByte_and_low (s : Bool) : statusToByte s &&& 0x7F = 0 := by
  cases s <;> rfl

theorem low_and_top {h : Nat} (hh : h < 128) : h &&& 0x80 = 0 := by
  have h7 : h < 2 ^ 7 := by norm_num; omega
  have := Nat.and_two_pow h 7
  rw [Nat.testBit_lt_two_pow h7] at this
  simpa using this

theorem low_and_low {h : Nat} (hh : h < 128) : h &&& 0x7F = h := by
  have : h &&& 2 ^ 7 - 1 = h % 2 ^ 7 := Nat.and_pow_two_sub_one_eq_mod h 7
  norm_num at this
  rw [this]
  omega

theorem packed_and_top (s : Bool) {h : Nat} (hh : h < 128) :
    (statusToByte s ||| h) &&& 0x80 = statusToByte s := by
  rw [Nat.and_distrib_right, statusToByte_and_top, low_and_top hh, Nat.or_zero]

theorem packed_and_low (s : Bool) {h : Nat} (hh : h < 128) :
    (statusToByte s ||| h) &&& 0x7F = h := by
  rw [Nat.and_distrib_right, statusToByte_and_low, low_and_low hh, Nat.zero_or]

theorem statusTryFrom_statusToByte (s : Bool) :
    statusTryFrom (statusToByte s) = Except.ok s := by
  cases s <;> rfl

theorem split_recombine (x : Nat) : ((x / 256) <<< 8) ||| x % 256 = x := by
  have hm : x % 256 < 2 ^ 8 := by
    have := Nat.mod_lt x (y := 256) (by norm_num)
    norm_num
    omega
  calc ((x / 256) <<< 8) ||| x % 256
      = 2 ^ 8 * (x / 256) ||| x % 256 := by rw [Nat.shiftLeft_eq, Nat.mul_comm]
    _ = 2 ^ 8 * (x / 256) + x % 256 := (Nat.mul_add_lt_is_or hm _).symm
    _ = x := by
        norm_num
        omega

theorem new_emergency_eq {ab addr : Nat} (s : Bool) (r : Nat) (hab : ab ≤ 8)
    (haddr : addr < 2 ^ ab) (hr : r < 0x8000) :
    ZanCanFrame.new_emergency ab addr s r
      = some { id := CanId.standard
                 (typeCode ZanCanFrameType.emergency * 2 ^ ab + addr),
               data_len := 2,
               data := [statusToByte s ||| r / 256, r % 256, 0, 0, 0, 0, 0, 0],
               f_type := ZanCanFrameType.emergency } := by
  unfold ZanCanFrame.new_emergency
  rw [id_from_type_and_address_eq ZanCanFrameType.emergency hab haddr]
  have h1 : r % 65536 = r := Nat.mod_eq_of_lt (by omega)
  have h2 : r >>> 8 = r / 256 := by
    rw [Nat.shiftRight_eq_div_pow]
  have h3 : r / 256 % 256 = r / 256 := Nat.mod_eq_of_lt (by omega)
  simp only [h1, h2, h3]

theorem decode_emergency_packed (i : CanId) (s : Bool) (r : Nat)
    (hr : r < 0x8000) :
    ZanCanFrame.decode_emergency
      { id := i, data_len := 2,
        data := [statusToByte s ||| r / 256, r % 256, 0, 0, 0, 0, 0, 0],
        f_type := ZanCanFrameType.emergency }
      = Except.ok (s, r) := by
  have hh : r / 256 < 128 := by omega
  unfold ZanCanFrame.decode_emergency
  rw [if_neg (by simp)]
  simp only [List.getD_cons_zero, List.getD_cons_succ]
  rw [packed_and_top s hh, statusTryFrom_statusToByte,
    packed_and_low s hh, split_recombine]
  unfold reasonTryFrom
  rw [if_pos hr]

theorem new_error_eq {ab addr : Nat} (c : Nat) (hab : ab ≤ 8)
    (haddr : addr < 2 ^ ab) (hc : c < 0x10000) :
    ZanCanFrame.new_error ab addr c
      = some { id := CanId.standard
                 (typeCode ZanCanFrameType.error * 2 ^ ab + addr),
               data_len := 2,
               data := [c / 256, c % 256, 0, 0, 0, 0, 0, 0],
               f_type := ZanCanFrameType.error } := by
  unfold ZanCanFrame.new_error
  rw [id_from_type_and_address_eq ZanCanFrameType.error hab haddr]
  have h1 : c % 65536 = c := Nat.mod_eq_of_lt (by omega)
  have h2 : c >>> 8 = c / 256 := by
    rw [Nat.shiftRight_eq_div_pow]
  have h3 : c / 256 % 256 = c / 256 := Nat.mod_eq_of_lt (by omega)
  simp only [h1, h2, h3]

theorem decode_error_packed (i : CanId) (l : Nat) (c : Nat) :
    ZanCanFrame.decode_error
      { id := i, data_len := l,
        data := [c / 256, c % 256, 0, 0, 0, 0, 0, 0],
        f_type := ZanCanFrameType.error }
      = Except.ok c := by
  unfold ZanCanFrame.decode_error
  rw [if_neg (by simp)]
  simp only [List.getD_cons_zero, List.getD_cons_succ]
  rw [split_recombine]
  rfl

theorem padTo8_take {bs : List Nat} (h : bs.length ≤ 8) :
    (padTo8 bs).take bs.length = bs := by
  rw [padTo8_eq h, List.take_append_eq_append_take,
    List.take_of_length_le (Nat.le_refl _), Nat.sub_self, List.take_zero,
    List.append_nil]

theorem new_sent_data_eq {α : Type} (D : DataCodec α) {ab addr : Nat} (m : α)
    {bs : List Nat} (hser : D.ser m = some bs) (hab : ab ≤ 8)
    (haddr : addr < 2 ^ ab) :
    ZanCanFrame.new_sent_data D ab addr m
      = some { id := CanId.standard
                 (typeCode ZanCanFrameType.sentData * 2 ^ ab + addr),
               data_len := D.len m, data := padTo8 bs,
               f_type := ZanCanFrameType.sentData } := by
  unfold ZanCanFrame.new_sent_data
  simp only [hser, id_from_type_and_address_eq ZanCanFrameType.sentData hab haddr]

theorem new_request_data_eq {α : Type} (D : DataCodec α) {ab addr : Nat} (m : α)
    {bs : List Nat} (hser : D.ser m = some bs) (hab : ab ≤ 8)
    (haddr : addr < 2 ^ ab) :
    ZanCanFrame.new_request_data D ab addr m
      = some { id := CanId.standard
                 (typeCode ZanCanFrameType.requestData * 2 ^ ab + addr),
               data_len := D.len m, data := padTo8 bs,
               f_type := ZanCanFrameType.requestData } := by
  unfold ZanCanFrame.new_request_data
  simp only [hser, id_from_type_and_address_eq ZanCanFrameType.requestData hab haddr]

theorem new_set_data_eq {α : Type} (D : DataCodec α) {ab addr : Nat} (m : α)
    {bs : List Nat} (hser : D.ser m = some bs) (hab : ab ≤ 8)
    (haddr : addr < 2 ^ ab) :
    ZanCanFrame.new_set_data D ab addr m
      = some { id := CanId.standard
                 (typeCode ZanCanFrameType.setData * 2 ^ ab + addr),
               data_len := D.len m, data := padTo8 bs,
               f_type := ZanCanFrameType.setData } := by
  unfold ZanCanFrame.new_set_data
  simp only [hser, id_from_type_and_address_eq ZanCanFrameType.setData hab haddr]

/-- Claim C1: for every message kind, every valid destination address and
every valid payload value, decoding the frame built by that kind's
constructor returns `Ok` of the same value.  For the three opaque data
kinds the payload collaborator contract (successful write, length
accounting, and the deserializer recovering the value from the window
the decoder passes) appears as explicit hypotheses, since that module is
external to the codec. -/
theorem C1_roundtrip (ab addr : Nat) (hab : ab ≤ 8) (haddr : addr < 2 ^ ab) :
    (∀ (s : Bool) (r : Nat), r < 0x8000 →
      (ZanCanFrame.new_emergency ab addr s r).map ZanCanFrame.decode_emergency
        = some (Except.ok (s, r))) ∧
    (∀ c : Nat, c < 0x10000 →
      (ZanCanFrame.new_error ab addr c).map ZanCanFrame.decode_error
        = some (Except.ok c)) ∧
    (∀ (α : Type) (D : DataCodec α) (m : α) (bs : List Nat),
      D.ser m = some bs → D.tryFrom (padTo8 bs) = Except.ok m →
      (ZanCanFrame.new_sent_data D ab addr m).map
        (ZanCanFrame.decode_sent_data D) = some (Except.ok m)) ∧
    (∀ (α : Type) (D : DataCodec α) (m : α) (bs : List Nat),
      D.ser m = some bs → D.len m = bs.length → bs.length ≤ 8 →
      D.tryFrom bs = Except.ok m →
      (ZanCanFrame.new_request_data D ab addr m).map
        (ZanCanFrame.decode_request_data D) = some (some (Except.ok m))) ∧
    (∀ (α : Type) (D : DataCodec α) (m : α) (bs : List Nat),
      D.ser m = some bs → D.tryFrom (padTo8 bs) = Except.ok m →
      (ZanCanFrame.new_set_data D ab addr m).map
        (ZanCanFrame.decode_set_data D) = some (Except.ok m)) := by
  refine ⟨fun s r hr => ?_, fun c hc => ?_, fun α D m bs hser htf => ?_,
    fun α D m bs hser hlen hle htf => ?_, fun α D m bs hser htf => ?_⟩
  · rw [new_emergency_eq s r hab haddr hr]
    exact congrArg some (decode_emergency_packed _ s r hr)
  · rw [new_error_eq c hab haddr hc]
    exact congrArg some (decode_error_packed _ 2 c)
  · rw [new_sent_data_eq D m hser hab haddr]
    refine congrArg some ?_
    unfold ZanCanFrame.decode_sent_data
    rw [if_neg (by simp)]
    exact htf
  · rw [new_request_data_eq D m hser hab haddr]
    refine congrArg some ?_
    unfold ZanCanFrame.decode_request_data
    rw [if_neg (by simp), if_pos (show D.len m ≤ 8 by omega)]
    show some (D.tryFrom ((padTo8 bs).take (D.len m))) = _
    rw [hlen, padTo8_take hle, htf]
  · rw [new_set_data_eq D m hser hab haddr]
    refine congrArg some ?_
    unfold ZanCanFrame.decode_set_data
    rw [if_neg (by simp)]
    exact htf

/-- Witness for C1 at `ab = 8`, `addr = 5`, with payload values
`(true, 0x1234)`, `0xABCD` and the byte `42` under `natCodec`. -/
theorem C1_witness :
    (ZanCanFrame.new_emergency 8 5 true 0x1234).map ZanCanFrame.decode_emergency
      = some (Except.ok (true, 0x1234)) ∧
    (ZanCanFrame.new_error 8 5 0xABCD).map ZanCanFrame.decode_error
      = some (Except.ok 0xABCD) ∧
    (ZanCanFrame.new_sent_data natCodec 8 5 42).map
      (ZanCanFrame.decode_sent_data natCodec) = some (Except.ok 42) ∧
    (ZanCanFrame.new_request_data natCodec 8 5 42).map
      (ZanCanFrame.decode_request_data natCodec) = some (some (Except.ok 42)) ∧
    (ZanCanFrame.new_set_data natCodec 8 5 42).map
      (ZanCanFrame.decode_set_data natCodec) = some (Except.ok 42) := by
  have h := C1_roundtrip 8 5 (by decide) (by decide)
  exact ⟨h.1 true 0x1234 (by decide), h.2.1 0xABCD (by decide),
    h.2.2.1 Nat natCodec 42 [42] rfl rfl,
    h.2.2.2.1 Nat natCodec 42 [42] rfl rfl (by decide) rfl,
    h.2.2.2.2 Nat natCodec 42 [42] rfl rfl⟩

/-- Claim C4: for every valid status and valid 15-bit reason,
`new_emergency` yields a length-2 frame whose byte 0 carries the status
in bit 7 (`byte0 &&& 0x80 = status byte`) and the high 7 bits of the
reason in bits 6-0 (`byte0 &&& 0x7F = reason >>> 8`), whose byte 1 is
the low 8 bits of the reason, and `decode_emergency` reproduces the
(status, reason) pair. -/
theorem C4_emergency_packing (ab addr : Nat) (s : Bool) (r : Nat)
    (hab : ab ≤ 8) (haddr : addr < 2 ^ ab) (hr : r < 0x8000) :
    ∃ fr, ZanCanFrame.new_emergency ab addr s r = some fr ∧
      fr.data_len = 2 ∧
      fr.data.getD 0 0 &&& 0x80 = statusToByte s ∧
      fr.data.getD 0 0 &&& 0x7F = r >>> 8 ∧
      fr.data.getD 1 0 = r % 256 ∧
      fr.decode_emergency = Except.ok (s, r) := by
  have hh : r / 256 < 128 := by omega
  have hsh : r >>> 8 = r / 256 := by
    rw [Nat.shiftRight_eq_div_pow]
  refine ⟨_, new_emergency_eq s r hab haddr hr, rfl, ?_, ?_, rfl,
    decode_emergency_packed _ s r hr⟩
  · simp only [List.getD_cons_zero]
    exact packed_and_top s hh
  · simp only [List.getD_cons_zero]
    rw [packed_and_low s hh, hsh]

/-- Witness for C4 at the spec's concrete example: status `true`,
reason `0x1234`, with `ab = 8`, `addr = 5`. -/
theorem C4_witness :
    ∃ fr, ZanCanFrame.new_emergency 8 5 true 0x1234 = some fr ∧
      fr.data_len = 2 ∧
      fr.data.getD 0 0 &&& 0x80 = statusToByte true ∧
      fr.data.getD 0 0 &&& 0x7F = 0x1234 >>> 8 ∧
      fr.data.getD 1 0 = 0x1234 % 256 ∧
      fr.decode_emergency = Except.ok (true, 0x1234) :=
  C4_emergency_packing 8 5 true 0x1234 (by decide) (by decide) (by decide)

/-- Claim C5: for every valid address and 16-bit error code, `new_error`
stores the code big-endian with length 2 (byte 0 the high byte, byte 1
the low byte) and `decode_error` reassembles exactly that code; moreover
on any Error-kind frame `decode_error` has no failure path at all, its
only error being the kind mismatch. -/
theorem C5_error_packing (ab addr c : Nat) (hab : ab ≤ 8)
    (haddr : addr < 2 ^ ab) (hc : c < 0x10000) :
    (∃ fr, ZanCanFrame.new_error ab addr c = some fr ∧
      fr.data_len = 2 ∧
      fr.data.getD 0 0 = c >>> 8 ∧
      fr.data.getD 1 0 = c % 256 ∧
      fr.decode_error = Except.ok c) ∧
    (∀ fr : ZanCanFrame, fr.f_type = ZanCanFrameType.error →
      ∃ v, fr.decode_error = Except.ok v) := by
  constructor
  · have hsh : c >>> 8 = c / 256 := by
      rw [Nat.shiftRight_eq_div_pow]
    refine ⟨_, new_error_eq c hab haddr hc, rfl, ?_, rfl,
      decode_error_packed _ 2 c⟩
    simp only [List.getD_cons_zero]
    rw [hsh]
  · intro fr hft
    refine ⟨errorCodeFromU16 ((fr.data.getD 0 0 <<< 8) ||| fr.data.getD 1 0), ?_⟩
    unfold ZanCanFrame.decode_error
    rw [if_neg (not_not_intro hft)]

/-- Witness for C5 at the spec's concrete example code `0xABCD`, with
`ab = 8`, `addr = 5`. -/
theorem C5_witness :
    (∃ fr, ZanCanFrame.new_error 8 5 0xABCD = some fr ∧
      fr.data_len = 2 ∧
      fr.data.getD 0 0 = 0xABCD >>> 8 ∧
      fr.data.getD 1 0 = 0xABCD % 256 ∧
      fr.decode_error = Except.ok 0xABCD) ∧
    (∀ fr : ZanCanFrame, fr.f_type = ZanCanFrameType.error →
      ∃ v, fr.decode_error = Except.ok v) :=
  C5_error_packing 8 5 0xABCD (by decide) (by decide) (by decide)

theorem classify_composed {ab addr : Nat} (t : ZanCanFrameType)
    (haddr : addr < 2 ^ ab) :
    frameTypeFromId ab (CanId.standard (typeCode t * 2 ^ ab + addr)) = t := by
  show frameTypeOfCode ((typeCode t * 2 ^ ab + addr) >>> ab) = t
  rw [shiftRight_recover t haddr, frameTypeOfCode_typeCode]

/-- Claim C6: every `ZanCanFrame` produced by `from_frame` or by one of
the five per-kind constructors has its cached kind equal to the frame
type obtained by decoding the type sub-field of its identifier; in
particular lifting a generic frame whose identifier encodes the SentData
type code classifies as SentData regardless of the generic frame's
extended or remote flags. -/
theorem C6_kind_consistency (ab addr : Nat) (hab : ab ≤ 8)
    (haddr : addr < 2 ^ ab) :
    (∀ (f : GenericFrame) (fr : ZanCanFrame),
      ZanCanFrame.from_frame ab f = some fr →
      fr.frame_type = frameTypeFromId ab fr.id) ∧
    (∀ (s : Bool) (r : Nat) (fr : ZanCanFrame),
      ZanCanFrame.new_emergency ab addr s r = some fr →
      fr.frame_type = frameTypeFromId ab fr.id) ∧
    (∀ (c : Nat) (fr : ZanCanFrame),
      ZanCanFrame.new_error ab addr c = some fr →
      fr.frame_type = frameTypeFromId ab fr.id) ∧
    (∀ (α : Type) (D : DataCodec α) (m : α) (fr : ZanCanFrame),
      ZanCanFrame.new_sent_data D ab addr m = some fr →
      fr.frame_type = frameTypeFromId ab fr.id) ∧
    (∀ (α : Type) (D : DataCodec α) (m : α) (fr : ZanCanFrame),
      ZanCanFrame.new_request_data D ab addr m = some fr →
      fr.frame_type = frameTypeFromId ab fr.id) ∧
    (∀ (α : Type) (D : DataCodec α) (m : α) (fr : ZanCanFrame),
      ZanCanFrame.new_set_data D ab addr m = some fr →
      fr.frame_type = frameTypeFromId ab fr.id) ∧
    (∀ (f : GenericFrame) (fr : ZanCanFrame),
      f.id.raw >>> ab = typeCode ZanCanFrameType.sentData →
      ZanCanFrame.from_frame ab f = some fr →
      fr.frame_type = ZanCanFrameType.sentData) := by
  refine ⟨fun f fr h => ?_, fun s r fr h => ?_, fun c fr h => ?_,
    fun α D m fr h => ?_, fun α D m fr h => ?_, fun α D m fr h => ?_,
    fun f fr hcode h => ?_⟩
  · unfold ZanCanFrame.from_frame at h
    split at h
    · injection h with h
      subst h
      rfl
    · exact Option.noConfusion h
  · unfold ZanCanFrame.new_emergency at h
    simp only [id_from_type_and_address_eq ZanCanFrameType.emergency hab haddr]
      at h
    injection h with h
    subst h
    exact (classify_composed ZanCanFrameType.emergency haddr).symm
  · unfold ZanCanFrame.new_error at h
    simp only [id_from_type_and_address_eq ZanCanFrameType.error hab haddr] at h
    injection h with h
    subst h
    exact (classify_composed ZanCanFrameType.error haddr).symm
  · cases hser : D.ser m with
    | none =>
        unfold ZanCanFrame.new_sent_data at h
        rw [hser] at h
        exact Option.noConfusion h
    | some bs =>
        rw [new_sent_data_eq D m hser hab haddr] at h
        injection h with h
        subst h
        exact (classify_composed ZanCanFrameType.sentData haddr).symm
  · cases hser : D.ser m with
    | none =>
        unfold ZanCanFrame.new_request_data at h
        rw [hser] at h
        exact Option.noConfusion h
    | some bs =>
        rw [new_request_data_eq D m hser hab haddr] at h
        injection h with h
        subst h
        exact (classify_composed ZanCanFrameType.requestData haddr).symm
  · cases hser : D.ser m with
    | none =>
        unfold ZanCanFrame.new_set_data at h
        rw [hser] at h
        exact Option.noConfusion h
    | some bs =>
        rw [new_set_data_eq D m hser hab haddr] at h
        injection h with h
        subst h
        exact (classify_composed ZanCanFrameType.setData haddr).symm
  · unfold ZanCanFrame.from_frame at h
    split at h
    · injection h with h
      subst h
      show frameTypeFromId ab f.id = ZanCanFrameType.sentData
      unfold frameTypeFromId
      rw [hcode, frameTypeOfCode_typeCode]
    · exact Option.noConfusion h

/-- A generic extended remote frame whose identifier raw value 517
carries the SentData type code (2) in its type sub-field for
`ADDRESS_BIT_LENGTH = 8`. -/
def liftFrame : GenericFrame :=
  { id := CanId.extended 517, dlc := 0, data := [], remote := true }

/-- The frame obtained by lifting `liftFrame`. -/
def liftedFr : ZanCanFrame :=
  { id := CanId.extended 517, data_len := 0,
    data := [0, 0, 0, 0, 0, 0, 0, 0], f_type := ZanCanFrameType.sentData }

/-- The frame built by `new_emergency 8 5 true 0x100`. -/
def emergFr : ZanCanFrame :=
  { id := CanId.standard 5, data_len := 2,
    data := [129, 0, 0, 0, 0, 0, 0, 0], f_type := ZanCanFrameType.emergency }

/-- Witness for C6: the lifted frame with SentData type code classifies
as SentData, and an emergency-constructed frame's cached kind equals the
classification of its own identifier. -/
theorem C6_witness :
    liftedFr.frame_type = ZanCanFrameType.sentData ∧
    emergFr.frame_type = frameTypeFromId 8 emergFr.id :=
  ⟨(C6_kind_consistency 8 5 (by decide) (by decide)).2.2.2.2.2.2 liftFrame
      liftedFr (by decide) rfl,
   (C6_kind_consistency 8 5 (by decide) (by decide)).2.1 true 0x100 emergFr
      rfl⟩

end ZanCan
